import Mathlib

/-!
Shallow embedding of the deterministic simulation core
(`core/src/deterministic_sim.cpp` plus the knockback entry point in
`core/src/lua_bridge.cpp`): fixed-point entity state, bounded per-client
input queues, delta snapshot serialization, and the demo server tick loop.

Machine integers are modelled as `Int`/`Nat`; the C++ `float`/`double`
parameters of the gameplay API are modelled as `ℚ`, with the cast to
`int32_t` modelled as truncation toward zero.  Byte buffers are
`List Nat`, every element kept below 256 by explicit `% 256`.
-/

-- ---------- Config ----------

def SERVER_TICK_RATE : Nat := 30

def POS_SCALE : Int := 1000

def MAX_CLIENT_INPUT_QUEUE : Nat := 256

-- ---------- Fixed-point helpers ----------

/-- Truncation of a rational toward zero, the effect of a C cast of a
float value to `int32_t`. -/
def ratTrunc (q : ℚ) : Int := q.num.tdiv q.den

/-- `to_fixed(world_units)`: `static_cast<int32_t>(world_units * POS_SCALE)`. -/
def to_fixed (q : ℚ) : Int := ratTrunc (q * 1000)

-- ---------- Entity State ----------

inductive EntityType where
  | Character
  | Projectile
deriving DecidableEq, Repr

structure EntityState where
  id : Nat := 0
  type : EntityType := EntityType.Character
  pos_x : Int := 0
  pos_y : Int := 0
  vel_x : Int := 0
  vel_y : Int := 0
  health : Int := 0
  radius : Int := 0
  lifetime_ticks : Int := -1
  flags : Nat := 0
deriving DecidableEq, Repr

-- ---------- Input ----------

structure ClientInput where
  client_id : Nat := 0
  input_seq : Nat := 0
  target_tick : Nat := 0
  move_dx : Int := 0
  move_dy : Int := 0
  action_flags : Nat := 0
  ability_id : Nat := 0
  target_x : Int := 0
  target_y : Int := 0
deriving DecidableEq, Repr

-- ---------- InputQueue (bounded deque, max 256) ----------

/-- `InputQueue::push`: reject once size reached `MAX_CLIENT_INPUT_QUEUE`,
otherwise append at the back; returns the new queue and the success flag. -/
def push (queue : List ClientInput) (i : ClientInput) :
    List ClientInput × Bool :=
  if MAX_CLIENT_INPUT_QUEUE ≤ queue.length then (queue, false)
  else (queue ++ [i], true)

/-- `InputQueue::popForTick`: scan the queue front to back, collecting
entries for the requested tick into the result and every other entry
into the retained queue.  Returns (result, retained queue). -/
def popForTick (tick : Nat) : List ClientInput → List ClientInput × List ClientInput
  | [] => ([], [])
  | c :: rest =>
      let r := popForTick tick rest
      if c.target_tick = tick then (c :: r.1, r.2) else (r.1, c :: r.2)

/-- Push a whole batch of inputs in order, recording whether every push
succeeded (used to state the bounded-queue property). -/
def pushAll (queue : List ClientInput) (ins : List ClientInput) :
    List ClientInput × Bool :=
  ins.foldl (fun acc i =>
    let r := push acc.1 i
    (r.1, acc.2 && r.2)) (queue, true)


-- ---------- Snapshot / Delta serialization ----------

/-- Change mask bits (`ChangeBits`), `1 <<< k` for k = 0..5. -/
def CH_PosX : Nat := 1

def CH_PosY : Nat := 2

def CH_VelX : Nat := 4

def CH_VelY : Nat := 8

def CH_Health : Nat := 16

def CH_Flags : Nat := 32

structure Snapshot where
  server_tick : Nat
  entities : List EntityState
deriving DecidableEq, Repr

/-- `write_u8`: append one byte (`% 256` is the `uint8_t` coercion). -/
def write_u8 (buf : List Nat) (v : Nat) : List Nat := buf ++ [v % 256]

/-- `write_u32`: append four little-endian bytes;
`(v >> 8k) & 0xFF` is written as `v / 2 ^ (8 k) % 256`. -/
def write_u32 (buf : List Nat) (v : Nat) : List Nat :=
  buf ++ [v % 256, v / 256 % 256, v / 65536 % 256, v / 16777216 % 256]

/-- `write_i32`: the two's-complement `uint32_t` image of an `int32_t`
value is its residue mod `2^32`. -/
def write_i32 (buf : List Nat) (v : Int) : List Nat :=
  write_u32 buf (v % 4294967296).toNat

/-- `prev_map.find(id)` on the reference map keyed by entity id. -/
def lookupPrev : List (Nat × EntityState) → Nat → Option EntityState
  | [], _ => none
  | kv :: rest, i => if kv.1 = i then some kv.2 else lookupPrev rest i

/-- The change mask computed by `serializeDelta` when the entity exists
in the reference map: one bit per differing field (`mask |= CH_...`). -/
def changeMask (prev e : EntityState) : Nat :=
  (if e.pos_x ≠ prev.pos_x then CH_PosX else 0) |||
  (if e.pos_y ≠ prev.pos_y then CH_PosY else 0) |||
  (if e.vel_x ≠ prev.vel_x then CH_VelX else 0) |||
  (if e.vel_y ≠ prev.vel_y then CH_VelY else 0) |||
  (if e.health ≠ prev.health then CH_Health else 0) |||
  (if e.flags ≠ prev.flags then CH_Flags else 0)

/-- The bytes `serializeDelta` writes for one (non-skipped) entity:
id, mask, then exactly the fields flagged in the mask. -/
def entityRecord (e : EntityState) (mask : Nat) : List Nat :=
  let out := write_u32 [] e.id
  let out := write_u8 out mask
  let out := if mask &&& CH_PosX ≠ 0 then write_i32 out e.pos_x else out
  let out := if mask &&& CH_PosY ≠ 0 then write_i32 out e.pos_y else out
  let out := if mask &&& CH_VelX ≠ 0 then write_i32 out e.vel_x else out
  let out := if mask &&& CH_VelY ≠ 0 then write_i32 out e.vel_y else out
  let out := if mask &&& CH_Health ≠ 0 then write_i32 out e.health else out
  let out := if mask &&& CH_Flags ≠ 0 then write_u8 out e.flags else out
  out

/-- The entity loop of `serializeDelta`: returns the body bytes and the
running `entity_count`.  A new entity gets the all-bits mask; a known
entity with mask 0 is skipped (`continue`). -/
def deltaLoop (prev : List (Nat × EntityState)) :
    List EntityState → List Nat × Nat
  | [] => ([], 0)
  | e :: rest =>
      let step : Option Nat :=
        match lookupPrev prev e.id with
        | none => some (CH_PosX ||| CH_PosY ||| CH_VelX ||| CH_VelY ||| CH_Health ||| CH_Flags)
        | some p => let m := changeMask p e; if m = 0 then none else some m
      let r := deltaLoop prev rest
      match step with
      | none => r
      | some mask => (entityRecord e mask ++ r.1, r.2 + 1)

/-- The four `out[count_pos + k] = ...` backpatch assignments. -/
def patch4 (buf : List Nat) (pos : Nat) (cnt : Nat) : List Nat :=
  ((((buf.set pos (cnt % 256)).set (pos + 1) (cnt / 256 % 256)).set
      (pos + 2) (cnt / 65536 % 256)).set (pos + 3) (cnt / 16777216 % 256))

/-- `serializeDelta`: tick header, 4-byte count placeholder, body, then
backpatch of the true entity count. -/
def serializeDelta (snap : Snapshot) (prev_map : List (Nat × EntityState)) :
    List Nat :=
  let out0 := write_u32 [] snap.server_tick
  let count_pos := out0.length
  let out1 := write_u32 out0 0
  let bc := deltaLoop prev_map snap.entities
  patch4 (out1 ++ bc.1) count_pos bc.2

/-- Read a little-endian u32 out of a byte buffer at offset `i`
(specification-side decoder used to state the backpatch property). -/
def readU32LE (buf : List Nat) (i : Nat) : Nat :=
  buf.getD i 0 + 256 * buf.getD (i + 1) 0 + 65536 * buf.getD (i + 2) 0 +
    16777216 * buf.getD (i + 3) 0

/-- Does `serializeDelta` write a record for this entity?  (New entity,
or at least one changed field.) -/
def writesRecord (prev : List (Nat × EntityState)) (e : EntityState) : Bool :=
  match lookupPrev prev e.id with
  | none => true
  | some p => decide (changeMask p e ≠ 0)

-- ---------- Simple deterministic physics and logic ----------

/-- `MAX_SPEED_FIXED_PER_TICK = static_cast<int32_t>((5.0f * POS_SCALE) / SERVER_TICK_RATE)`:
`5000.0f / 30` truncates to 166. -/
def MAX_SPEED_FIXED_PER_TICK : Int := (5 * 1000 : Int).tdiv 30

def FRICTION_PER_TICK : Int := 25

/-- `applyInputsToEntity`: every input with a non-zero direction
overwrites the velocity (last write wins); C++ `/` on `int32_t`
truncates toward zero, hence `Int.tdiv`. -/
def applyInputsToEntity (e : EntityState) (inputs : List ClientInput) :
    EntityState :=
  inputs.foldl (fun e i =>
    if i.move_dx ≠ 0 ∨ i.move_dy ≠ 0 then
      { e with vel_x := (MAX_SPEED_FIXED_PER_TICK * i.move_dx).tdiv 127,
               vel_y := (MAX_SPEED_FIXED_PER_TICK * i.move_dy).tdiv 127 }
    else e) e

/-- The last input of a batch whose direction is non-zero (the one
whose velocity survives `applyInputsToEntity`). -/
def lastMoveInput (inputs : List ClientInput) : Option ClientInput :=
  inputs.foldl (fun acc i =>
    if i.move_dx ≠ 0 ∨ i.move_dy ≠ 0 then some i else acc) none

def approach_zero (current_val amount : Int) : Int :=
  if current_val > amount then current_val - amount
  else if current_val < -amount then current_val + amount
  else 0

/-- `simulateEntityTick`: integrate position, apply friction to
Characters only, decrement a positive lifetime. -/
def simulateEntityTick (e : EntityState) : EntityState :=
  let e := { e with pos_x := e.pos_x + e.vel_x, pos_y := e.pos_y + e.vel_y }
  let e :=
    if e.type = EntityType.Character then
      { e with vel_x := approach_zero e.vel_x FRICTION_PER_TICK,
               vel_y := approach_zero e.vel_y FRICTION_PER_TICK }
    else e
  if e.lifetime_ticks > 0 then { e with lifetime_ticks := e.lifetime_ticks - 1 }
  else e

/-- The lifetime after one `simulateEntityTick`. -/
def decLife (n : Int) : Int := if n > 0 then n - 1 else n

-- ---------- Demo server ----------

/-- `entities.find(id)`: first entity carrying the id. -/
def findEntity : List EntityState → Nat → Option EntityState
  | [], _ => none
  | e :: rest, i => if e.id = i then some e else findEntity rest i

/-- In-place mutation of the entry found for `i` (hash-map keys are
unique, so at most one entry is affected). -/
def updateEntity (l : List EntityState) (i : Nat) (f : EntityState → EntityState) :
    List EntityState :=
  l.map fun e => if e.id = i then f e else e

/-- `entities[p.id] = p`: overwrite the entry with that key, or insert. -/
def insertEntity : List EntityState → EntityState → List EntityState
  | [], p => [p]
  | e :: rest, p => if e.id = p.id then p :: rest else e :: insertEntity rest p

def lookupQueue : List (Nat × List ClientInput) → Nat → Option (List ClientInput)
  | [], _ => none
  | kv :: rest, c => if kv.1 = c then some kv.2 else lookupQueue rest c

/-- Store a client's queue back, inserting it if absent
(`input_queues[in.client_id]` default-constructs a missing queue). -/
def setQueue : List (Nat × List ClientInput) → Nat → List ClientInput →
    List (Nat × List ClientInput)
  | [], c, q => [(c, q)]
  | kv :: rest, c, q => if kv.1 = c then (c, q) :: rest else kv :: setQueue rest c q

structure ServerState where
  server_tick : Nat
  next_entity_id : Nat
  entities : List EntityState
  input_queues : List (Nat × List ClientInput)
  prev_snapshot_map : List (Nat × EntityState)
  prev_snapshot_map_before_tick : List (Nat × EntityState)
deriving DecidableEq, Repr

/-- The `DemoServer` constructor: tick 0, id generator at 1001, one
Character at the origin with 100 health and radius 0.5 world units. -/
def initServer : ServerState :=
  let e : EntityState :=
    { id := 1001, type := EntityType.Character,
      pos_x := to_fixed 0, pos_y := to_fixed 0,
      vel_x := 0, vel_y := 0, health := 100, flags := 0,
      radius := to_fixed (1 / 2) }
  { server_tick := 0, next_entity_id := 1002, entities := [e],
    input_queues := [], prev_snapshot_map := [],
    prev_snapshot_map_before_tick := [] }

/-- `DemoServer::receiveInput`: push onto the client's queue, creating
the queue when the client is new. -/
def receiveInput (S : ServerState) (i : ClientInput) : Bool × ServerState :=
  let q := (lookupQueue S.input_queues i.client_id).getD []
  let r := push q i
  (r.2, { S with input_queues := setQueue S.input_queues i.client_id r.1 })

/-- Step 1 of `DemoServer::tick`: for every client queue in order, drain
the inputs for the current tick; client inputs are hardcoded to drive
entity 1001 when it exists and the drained batch is non-empty. -/
def inputPhase (tickNo : Nat) :
    List (Nat × List ClientInput) → List EntityState →
      List (Nat × List ClientInput) × List EntityState
  | [], ents => ([], ents)
  | kv :: rest, ents =>
      let pr := popForTick tickNo kv.2
      let ents' :=
        if (findEntity ents 1001).isSome ∧ pr.1 ≠ [] then
          updateEntity ents 1001 (fun e => applyInputsToEntity e pr.1)
        else ents
      let r := inputPhase tickNo rest ents'
      ((kv.1, pr.2) :: r.1, r.2)

/-- `DemoServer::tick`: apply inputs, simulate every entity, erase
expired projectiles, build the snapshot, refresh the previous-snapshot
map, and advance the tick counter. -/
def tick (S : ServerState) : Snapshot × ServerState :=
  let ip := inputPhase S.server_tick S.input_queues S.entities
  let ents2 := ip.2.map simulateEntityTick
  let ents3 := ents2.filter fun e =>
    decide ¬(e.type = EntityType.Projectile ∧ e.lifetime_ticks = 0)
  let snap : Snapshot := { server_tick := S.server_tick, entities := ents3 }
  let prev' := ents3.map fun e => (e.id, e)
  (snap, { S with server_tick := S.server_tick + 1, entities := ents3,
                  input_queues := ip.1, prev_snapshot_map := prev' })

/-- The server state after one tick. -/
def stepState (S : ServerState) : ServerState := (tick S).2

/-- The snapshot produced by the tick that starts `j` ticks after `S`
(its `server_tick` is `S.server_tick + j`). -/
def snapAt (S : ServerState) (j : Nat) : Snapshot := (tick (stepState^[j] S)).1

-- ---------- Gameplay API ----------

/-- `DemoServer::ApplyDamage`: subtract, clamp at zero; `false` and no
change when the target is unknown. -/
def ApplyDamage (S : ServerState) (source_id target_id : Nat) (amount : Int)
    (damage_type : String) : Bool × ServerState :=
  match findEntity S.entities target_id with
  | none => (false, S)
  | some _ =>
      (true, { S with entities := updateEntity S.entities target_id fun e =>
        let h := e.health - amount
        { e with health := if h < 0 then 0 else h } })

/-- Division that records the division-by-zero hazard: `none` exactly
when the divisor is zero. -/
def qdivChecked (a b : ℚ) : Option ℚ := if b = 0 then none else some (a / b)

/-- `DemoServer::ApplyKnockback`, parametric in the square-root routine
`s` (floats are modelled as rationals).  The direction is divided by its
length only under the `len > 0` guard; the per-tick fixed-point delta is
added onto the target's velocity.  `none` would mean a division by zero
was reached. -/
def ApplyKnockback (s : ℚ → ℚ) (S : ServerState) (source_id target_id : Nat)
    (dir_x dir_y force duration : ℚ) : Option (Bool × ServerState) :=
  match findEntity S.entities target_id with
  | none => some (false, S)
  | some _ =>
      let len := s (dir_x * dir_x + dir_y * dir_y)
      let nd : Option (ℚ × ℚ) :=
        if 0 < len then
          (qdivChecked dir_x len).bind fun a =>
            (qdivChecked dir_y len).map fun b => (a, b)
        else some (dir_x, dir_y)
      nd.bind fun p =>
        (qdivChecked (p.1 * force) 30).bind fun qx =>
          (qdivChecked (p.2 * force) 30).map fun qy =>
            (true, { S with entities := updateEntity S.entities target_id fun en =>
              { en with vel_x := en.vel_x + to_fixed qx,
                        vel_y := en.vel_y + to_fixed qy } })

/-- `LuaBridge::l_ApplyKnockback`: normalize the direction first,
substituting `(1, 0)` (with length 1) for a zero-length input, then call
the engine entry point. -/
def l_ApplyKnockback (s : ℚ → ℚ) (S : ServerState) (source_id target_id : Nat)
    (dir_x dir_y force duration : ℚ) : Option (Bool × ServerState) :=
  let len := s (dir_x * dir_x + dir_y * dir_y)
  let t : ℚ × ℚ × ℚ := if len = 0 then (1, 0, 1) else (dir_x, dir_y, len)
  (qdivChecked t.1 t.2.2).bind fun ndx =>
    (qdivChecked t.2.1 t.2.2).bind fun ndy =>
      ApplyKnockback s S source_id target_id ndx ndy force duration

/-- `DemoServer::SpawnProjectile`: fresh id, Projectile kind, per-tick
velocity from `speed` (units/second), finite lifetime only when
`life_time > 0`.  The float parameters are modelled as rationals. -/
def SpawnProjectile (S : ServerState) (caster_id : Nat)
    (x y dx dy speed radius life_time : ℚ) : Nat × ServerState :=
  let vel_per_tick := speed / 30
  let proj : EntityState :=
    { id := S.next_entity_id, type := EntityType.Projectile,
      pos_x := to_fixed x, pos_y := to_fixed y,
      vel_x := to_fixed (dx * vel_per_tick), vel_y := to_fixed (dy * vel_per_tick),
      radius := to_fixed radius,
      lifetime_ticks := if 0 < life_time then ratTrunc (life_time * 30) else -1 }
  (proj.id, { S with next_entity_id := S.next_entity_id + 1,
                     entities := insertEntity S.entities proj })

-- ---------- Scenario of spec §8 (demo main) ----------

/-- One scenario input: client 1, `dx = 127, dy = 0`, targeting tick `t`. -/
def scenarioInput (t : Nat) : ClientInput :=
  { client_id := 1, input_seq := t + 1, target_tick := t,
    move_dx := 127, move_dy := 0 }

/-- The server right before the first tick of the §8 scenario: the
constructor state plus ten queued inputs targeting ticks 0..9. -/
def scenarioServer : ServerState :=
  (List.range 10).foldl (fun S t => (receiveInput S (scenarioInput t)).2) initServer

/-- The fields of an entity that decide identity and removal:
id, kind, and remaining lifetime. -/
def tlKey (e : EntityState) : Nat × EntityType × Int :=
  (e.id, e.type, e.lifetime_ticks)

-- ---------- Theorems ----------

-- C7

/-- C7: `popForTick` removes and returns exactly the entries whose
`target_tick` equals the requested tick, in FIFO order, and retains all
other entries in their original relative order (a stable partition, so
no entry is reordered relative to same-tick siblings). -/
theorem popForTick_stable_partition (t : Nat) (q : List ClientInput) :
    popForTick t q =
      (q.filter fun c => decide (c.target_tick = t),
       q.filter fun c => decide (¬c.target_tick = t)) := by
  induction q with
  | nil => rfl
  | cons c rest ih =>
      by_cases h : c.target_tick = t <;>
        simp [popForTick, ih, List.filter_cons, h]

-- C8

theorem pushAll_ok (ins : List ClientInput) :
    ∀ q : List ClientInput, q.length + ins.length ≤ MAX_CLIENT_INPUT_QUEUE →
      pushAll q ins = (q ++ ins, true) := by
  induction ins with
  | nil => intro q _; simp [pushAll]
  | cons i rest ih =>
      intro q hq
      have hlt : ¬MAX_CLIENT_INPUT_QUEUE ≤ q.length := by
        simp only [List.length_cons] at hq
        omega
      have : pushAll q (i :: rest) = pushAll (q ++ [i]) rest := by
        simp [pushAll, push, hlt]
      rw [this, ih (q ++ [i]) (by simp at hq ⊢; omega)]
      simp

/-- C8: `push` succeeds exactly while the queue holds fewer than 256
entries; pushing 256 inputs into an empty queue succeeds, and the 257th
push fails and leaves the queue contents unchanged. -/
theorem push_capacity :
    (∀ (q : List ClientInput) i, q.length < MAX_CLIENT_INPUT_QUEUE →
      push q i = (q ++ [i], true))
    ∧ (∀ (q : List ClientInput) i, MAX_CLIENT_INPUT_QUEUE ≤ q.length →
      push q i = (q, false))
    ∧ (∀ (l : List ClientInput) i, l.length = 256 →
      pushAll [] l = (l, true) ∧ push l i = (l, false)) := by
  refine ⟨fun q i h => ?_, fun q i h => ?_, fun l i h => ⟨?_, ?_⟩⟩
  · simp [push, Nat.not_le.mpr h]
  · simp [push, h]
  · simpa using pushAll_ok l [] (by simp [h, MAX_CLIENT_INPUT_QUEUE])
  · simp [push, MAX_CLIENT_INPUT_QUEUE, h]

set_option maxRecDepth 8000 in
/-- Witness for C8 at a concrete 256-element queue. -/
theorem push_capacity_witness :
    pushAll [] (List.replicate 256 ({} : ClientInput))
        = (List.replicate 256 ({} : ClientInput), true)
    ∧ push (List.replicate 256 ({} : ClientInput)) {}
        = (List.replicate 256 ({} : ClientInput), false) :=
  push_capacity.2.2 (List.replicate 256 {}) {} (List.length_replicate 256 {})

-- C4

theorem lastMove_foldl_acc (l : List ClientInput) :
    ∀ a : Option ClientInput,
      l.foldl (fun acc i => if i.move_dx ≠ 0 ∨ i.move_dy ≠ 0 then some i else acc) a
        = match lastMoveInput l with
          | some j => some j
          | none => a := by
  induction l with
  | nil => intro a; simp [lastMoveInput]
  | cons i rest ih =>
      intro a
      show rest.foldl _ (if i.move_dx ≠ 0 ∨ i.move_dy ≠ 0 then some i else a) = _
      have hl : lastMoveInput (i :: rest)
          = match lastMoveInput rest with
            | some j => some j
            | none => if i.move_dx ≠ 0 ∨ i.move_dy ≠ 0 then some i else none := by
        show rest.foldl _ (if i.move_dx ≠ 0 ∨ i.move_dy ≠ 0 then some i else none) = _
        rw [ih]
      rw [ih, hl]
      cases lastMoveInput rest <;> by_cases h : i.move_dx ≠ 0 ∨ i.move_dy ≠ 0 <;> simp [h]

/-- C4: after draining a batch, the entity's velocity is
`(MAX_SPEED_FIXED_PER_TICK * d) / 127` (truncating integer division)
computed from the last input in the batch with a non-zero direction;
zero-direction inputs never touch the velocity, and a batch with no
non-zero-direction input leaves the velocity unchanged. -/
theorem applyInputs_last_write_wins (e : EntityState) (inputs : List ClientInput) :
    ((applyInputsToEntity e inputs).vel_x, (applyInputsToEntity e inputs).vel_y)
      = match lastMoveInput inputs with
        | some i => ((MAX_SPEED_FIXED_PER_TICK * i.move_dx).tdiv 127,
                     (MAX_SPEED_FIXED_PER_TICK * i.move_dy).tdiv 127)
        | none => (e.vel_x, e.vel_y) := by
  induction inputs generalizing e with
  | nil => simp [applyInputsToEntity, lastMoveInput]
  | cons i rest ih =>
      have hl : lastMoveInput (i :: rest)
          = match lastMoveInput rest with
            | some j => some j
            | none => if i.move_dx ≠ 0 ∨ i.move_dy ≠ 0 then some i else none := by
        show rest.foldl _ (if i.move_dx ≠ 0 ∨ i.move_dy ≠ 0 then some i else none) = _
        rw [lastMove_foldl_acc]
      have happ : applyInputsToEntity e (i :: rest)
          = applyInputsToEntity
              (if i.move_dx ≠ 0 ∨ i.move_dy ≠ 0 then
                { e with vel_x := (MAX_SPEED_FIXED_PER_TICK * i.move_dx).tdiv 127,
                         vel_y := (MAX_SPEED_FIXED_PER_TICK * i.move_dy).tdiv 127 }
              else e) rest := by
        by_cases h : i.move_dx ≠ 0 ∨ i.move_dy ≠ 0 <;>
          simp [applyInputsToEntity, h]
      rw [happ, hl]
      by_cases h : i.move_dx ≠ 0 ∨ i.move_dy ≠ 0
      · rw [if_pos h, ih]
        cases lastMoveInput rest <;> simp [h]
      · rw [if_neg h, ih]
        cases lastMoveInput rest <;> simp [h]

-- C5

theorem approach_zero_iter_zero (n : Nat) :
    ∀ v : Int, v.natAbs ≤ 25 * n →
      (fun v => approach_zero v FRICTION_PER_TICK)^[n] v = 0 := by
  induction n with
  | zero =>
      intro v hv
      have : v = 0 := by omega
      simpa [this]
  | succ n ih =>
      intro v hv
      rw [Function.iterate_succ_apply]
      apply ih
      simp only [approach_zero, FRICTION_PER_TICK]
      split_ifs with h1 h2 <;> omega

theorem approach_zero_sign (v : Int) :
    (0 ≤ v → 0 ≤ approach_zero v FRICTION_PER_TICK
            ∧ approach_zero v FRICTION_PER_TICK ≤ v)
    ∧ (v ≤ 0 → v ≤ approach_zero v FRICTION_PER_TICK
            ∧ approach_zero v FRICTION_PER_TICK ≤ 0) := by
  simp only [approach_zero, FRICTION_PER_TICK]
  split_ifs with h1 h2 <;> constructor <;> intro h <;> omega

theorem simulateEntityTick_type (e : EntityState) :
    (simulateEntityTick e).type = e.type := by
  simp only [simulateEntityTick]
  split_ifs <;> rfl

theorem simulateEntityTick_char_vel (e : EntityState)
    (h : e.type = EntityType.Character) :
    (simulateEntityTick e).vel_x = approach_zero e.vel_x FRICTION_PER_TICK
    ∧ (simulateEntityTick e).vel_y = approach_zero e.vel_y FRICTION_PER_TICK := by
  simp only [simulateEntityTick, h]
  split_ifs <;> simp

theorem simulateEntityTick_iter_char (n : Nat) :
    ∀ e : EntityState, e.type = EntityType.Character →
      (simulateEntityTick^[n] e).vel_x
          = (fun v => approach_zero v FRICTION_PER_TICK)^[n] e.vel_x
      ∧ (simulateEntityTick^[n] e).vel_y
          = (fun v => approach_zero v FRICTION_PER_TICK)^[n] e.vel_y := by
  induction n with
  | zero => intro e _; simp
  | succ n ih =>
      intro e he
      have ht : (simulateEntityTick e).type = EntityType.Character := by
        rw [simulateEntityTick_type e, he]
      have hv := simulateEntityTick_char_vel e he
      rw [Function.iterate_succ_apply, Function.iterate_succ_apply]
      have := ih (simulateEntityTick e) ht
      rw [this.1, this.2, hv.1, hv.2]
      exact ⟨rfl, rfl⟩

theorem approach_zero_iter_sign (j : Nat) :
    ∀ v : Int,
      (0 ≤ v → 0 ≤ (fun v => approach_zero v FRICTION_PER_TICK)^[j] v)
      ∧ (v ≤ 0 → (fun v => approach_zero v FRICTION_PER_TICK)^[j] v ≤ 0) := by
  induction j with
  | zero => intro v; simp
  | succ j ih =>
      intro v
      simp only [Function.iterate_succ_apply]
      constructor <;> intro h
      · exact (ih _).1 ((approach_zero_sign v).1 h).1
      · exact (ih _).2 ((approach_zero_sign v).2 h).2

/-- C5: for a Character, each tick moves each velocity component toward
zero by `FRICTION_PER_TICK` via `approach_zero`; a component `v0 ≠ 0`
is exactly zero after `⌈|v0| / 25⌉ = (|v0| + 24) / 25` ticks with no
further input, and never changes sign on the way; Projectiles are
exempt from friction. -/
theorem friction_convergence :
    (∀ e : EntityState, e.type = EntityType.Character →
      (e.vel_x ≠ 0 →
        (simulateEntityTick^[(e.vel_x.natAbs + 24) / 25] e).vel_x = 0)
      ∧ (e.vel_y ≠ 0 →
        (simulateEntityTick^[(e.vel_y.natAbs + 24) / 25] e).vel_y = 0)
      ∧ (∀ j : Nat,
          (0 ≤ e.vel_x → 0 ≤ (simulateEntityTick^[j] e).vel_x)
          ∧ (e.vel_x ≤ 0 → (simulateEntityTick^[j] e).vel_x ≤ 0)
          ∧ (0 ≤ e.vel_y → 0 ≤ (simulateEntityTick^[j] e).vel_y)
          ∧ (e.vel_y ≤ 0 → (simulateEntityTick^[j] e).vel_y ≤ 0))
      ∧ (simulateEntityTick e).vel_x = approach_zero e.vel_x FRICTION_PER_TICK
      ∧ (simulateEntityTick e).vel_y = approach_zero e.vel_y FRICTION_PER_TICK)
    ∧ (∀ p : EntityState, p.type = EntityType.Projectile →
      (simulateEntityTick p).vel_x = p.vel_x
      ∧ (simulateEntityTick p).vel_y = p.vel_y) := by
  constructor
  · intro e he
    have hceil : ∀ a : Nat, a ≤ 25 * ((a + 24) / 25) := by
      intro a
      have h1 := Nat.div_add_mod (a + 24) 25
      have h2 : (a + 24) % 25 < 25 := Nat.mod_lt _ (by norm_num)
      omega
    refine ⟨fun _ => ?_, fun _ => ?_, fun j => ?_, simulateEntityTick_char_vel e he⟩
    · rw [(simulateEntityTick_iter_char _ e he).1]
      exact approach_zero_iter_zero _ _ (hceil _)
    · rw [(simulateEntityTick_iter_char _ e he).2]
      exact approach_zero_iter_zero _ _ (hceil _)
    · have hx := (simulateEntityTick_iter_char j e he).1
      have hy := (simulateEntityTick_iter_char j e he).2
      rw [hx, hy]
      exact ⟨(approach_zero_iter_sign j e.vel_x).1,
             (approach_zero_iter_sign j e.vel_x).2,
             (approach_zero_iter_sign j e.vel_y).1,
             (approach_zero_iter_sign j e.vel_y).2⟩
  · intro p hp
    have : p.type ≠ EntityType.Character := by rw [hp]; intro h; cases h
    simp only [simulateEntityTick, if_neg this]
    split_ifs <;> simp

/-- Witness for C5: a Character with `vel = (60, -30)` reaches zero x
velocity after `⌈60/25⌉ = 3` ticks and zero y velocity after 2. -/
theorem friction_convergence_witness :
    (simulateEntityTick^[3]
      ({ id := 1, type := EntityType.Character, vel_x := 60, vel_y := -30 }
        : EntityState)).vel_x = 0
    ∧ (simulateEntityTick
      ({ id := 2, type := EntityType.Projectile, vel_x := 7, vel_y := 9 }
        : EntityState)).vel_x = 7 := by
  constructor
  · have h := (friction_convergence.1
      ({ id := 1, type := EntityType.Character, vel_x := 60, vel_y := -30 })
      rfl).1 (by decide)
    simpa using h
  · exact (friction_convergence.2
      ({ id := 2, type := EntityType.Projectile, vel_x := 7, vel_y := 9 })
      rfl).1

-- C1 / C2

theorem deltaLoop_append (prev : List (Nat × EntityState)) (l1 l2 : List EntityState) :
    deltaLoop prev (l1 ++ l2)
      = ((deltaLoop prev l1).1 ++ (deltaLoop prev l2).1,
         (deltaLoop prev l1).2 + (deltaLoop prev l2).2) := by
  induction l1 with
  | nil => simp [deltaLoop]
  | cons e l1 ih =>
      simp only [List.cons_append, deltaLoop]
      cases h : lookupPrev prev e.id with
      | none => simp [ih, List.append_assoc]; omega
      | some p =>
          by_cases hm : changeMask p e = 0 <;>
            simp [hm, ih, List.append_assoc] <;> omega

theorem changeMask_zero_of_eq (p e : EntityState)
    (hx : e.pos_x = p.pos_x) (hy : e.pos_y = p.pos_y)
    (hvx : e.vel_x = p.vel_x) (hvy : e.vel_y = p.vel_y)
    (hh : e.health = p.health) (hf : e.flags = p.flags) :
    changeMask p e = 0 := by
  simp [changeMask, hx, hy, hvx, hvy, hh, hf]

theorem deltaLoop_count (prev : List (Nat × EntityState)) (l : List EntityState) :
    (deltaLoop prev l).2 = l.countP (writesRecord prev) := by
  induction l with
  | nil => simp [deltaLoop]
  | cons e l ih =>
      cases h : lookupPrev prev e.id with
      | none => simp [deltaLoop, h, writesRecord, ih, List.countP_cons]
      | some p =>
          by_cases hm : changeMask p e = 0 <;>
            simp [deltaLoop, h, hm, writesRecord, ih, List.countP_cons]

theorem serializeDelta_decomp (snap : Snapshot) (prev : List (Nat × EntityState)) :
    serializeDelta snap prev
      = write_u32 [] snap.server_tick
        ++ write_u32 [] (deltaLoop prev snap.entities).2
        ++ (deltaLoop prev snap.entities).1 := rfl

theorem entityRecord_full (e : EntityState) :
    entityRecord e (CH_PosX ||| CH_PosY ||| CH_VelX ||| CH_VelY ||| CH_Health ||| CH_Flags)
      = write_u32 [] e.id
        ++ [CH_PosX ||| CH_PosY ||| CH_VelX ||| CH_VelY ||| CH_Health ||| CH_Flags]
        ++ write_i32 [] e.pos_x ++ write_i32 [] e.pos_y
        ++ write_i32 [] e.vel_x ++ write_i32 [] e.vel_y
        ++ write_i32 [] e.health ++ [e.flags % 256] := by
  simp [entityRecord, CH_PosX, CH_PosY, CH_VelX, CH_VelY, CH_Health, CH_Flags,
    write_u8, write_u32, write_i32]

/-- C1: an entity whose six compared fields all equal the reference
entry with its id contributes zero bytes to the delta (removing it from
the snapshot leaves the encoding byte-identical), and the u32 that the
backpatch plants at offset 4 is exactly the number of entity records
written to the body. -/
theorem serializeDelta_omission_and_count :
    (∀ (t : Nat) (prev : List (Nat × EntityState)) (l1 l2 : List EntityState)
       (e p : EntityState), lookupPrev prev e.id = some p →
       e.pos_x = p.pos_x → e.pos_y = p.pos_y → e.vel_x = p.vel_x →
       e.vel_y = p.vel_y → e.health = p.health → e.flags = p.flags →
       serializeDelta ⟨t, l1 ++ e :: l2⟩ prev = serializeDelta ⟨t, l1 ++ l2⟩ prev)
    ∧ (∀ (snap : Snapshot) (prev : List (Nat × EntityState)),
       (deltaLoop prev snap.entities).2 = snap.entities.countP (writesRecord prev)
       ∧ (snap.entities.length < 4294967296 →
          readU32LE (serializeDelta snap prev) 4 = (deltaLoop prev snap.entities).2)) := by
  constructor
  · intro t prev l1 l2 e p hp hx hy hvx hvy hh hf
    have hskip : deltaLoop prev (e :: l2) = deltaLoop prev l2 := by
      simp [deltaLoop, hp, changeMask_zero_of_eq p e hx hy hvx hvy hh hf]
    rw [serializeDelta_decomp, serializeDelta_decomp]
    simp only [deltaLoop_append, hskip]
  · intro snap prev
    refine ⟨deltaLoop_count prev snap.entities, fun hlen => ?_⟩
    have hcnt : (deltaLoop prev snap.entities).2 < 4294967296 :=
      lt_of_le_of_lt
        (by rw [deltaLoop_count]; exact List.countP_le_length _) hlen
    rw [serializeDelta_decomp]
    simp only [readU32LE, write_u32, List.nil_append, List.cons_append,
      List.getD_cons_succ, List.getD_cons_zero, List.append_assoc]
    omega

/-- Witness for C1: dropping an unchanged entity does not change the
bytes, and the backpatched count of a two-entity snapshot with one
changed entity reads back as 1. -/
theorem serializeDelta_omission_and_count_witness :
    serializeDelta ⟨7, [{ id := 1, health := 5 }]⟩ [(1, { id := 1, health := 5 })]
        = serializeDelta ⟨7, []⟩ [(1, { id := 1, health := 5 })]
    ∧ readU32LE (serializeDelta
        ⟨7, [{ id := 1, health := 5 }, { id := 2, health := 9 }]⟩
        [(1, { id := 1, health := 5 }), (2, { id := 2, health := 8 })]) 4
      = (deltaLoop [(1, { id := 1, health := 5 }), (2, { id := 2, health := 8 })]
          [{ id := 1, health := 5 }, { id := 2, health := 9 }]).2 := by
  constructor
  · exact serializeDelta_omission_and_count.1 7 _ [] []
      { id := 1, health := 5 } { id := 1, health := 5 }
      (by decide) rfl rfl rfl rfl rfl rfl
  · exact (serializeDelta_omission_and_count.2
      ⟨7, [{ id := 1, health := 5 }, { id := 2, health := 9 }]⟩
      [(1, { id := 1, health := 5 }), (2, { id := 2, health := 8 })]).2
      (by decide)

/-- C2: an entity whose id is absent from the reference map is encoded
as a record carrying its id, the all-six-bits change mask, and the full
little-endian field list with its exact field values. -/
theorem serializeDelta_new_entity (t : Nat) (prev : List (Nat × EntityState))
    (l1 l2 : List EntityState) (e : EntityState)
    (h : lookupPrev prev e.id = none) :
    serializeDelta ⟨t, l1 ++ e :: l2⟩ prev
      = write_u32 [] t
        ++ write_u32 [] (deltaLoop prev (l1 ++ e :: l2)).2
        ++ (deltaLoop prev l1).1
        ++ (write_u32 [] e.id
            ++ [CH_PosX ||| CH_PosY ||| CH_VelX ||| CH_VelY ||| CH_Health ||| CH_Flags]
            ++ write_i32 [] e.pos_x ++ write_i32 [] e.pos_y
            ++ write_i32 [] e.vel_x ++ write_i32 [] e.vel_y
            ++ write_i32 [] e.health ++ [e.flags % 256])
        ++ (deltaLoop prev l2).1 := by
  have hnew : (deltaLoop prev (e :: l2)).1
      = entityRecord e (CH_PosX ||| CH_PosY ||| CH_VelX ||| CH_VelY ||| CH_Health ||| CH_Flags)
        ++ (deltaLoop prev l2).1 := by
    simp [deltaLoop, h]
  rw [serializeDelta_decomp]
  simp only [deltaLoop_append, hnew, entityRecord_full, List.append_assoc]

/-- Witness for C2 on a concrete new entity. -/
theorem serializeDelta_new_entity_witness :
    serializeDelta ⟨3, [{ id := 9, pos_x := 2, health := 10, flags := 6 }]⟩ []
      = write_u32 [] 3
        ++ write_u32 [] (deltaLoop [] [{ id := 9, pos_x := 2, health := 10, flags := 6 }]).2
        ++ (deltaLoop [] ([] : List EntityState)).1
        ++ (write_u32 [] 9
            ++ [CH_PosX ||| CH_PosY ||| CH_VelX ||| CH_VelY ||| CH_Health ||| CH_Flags]
            ++ write_i32 [] 2 ++ write_i32 [] 0
            ++ write_i32 [] 0 ++ write_i32 [] 0
            ++ write_i32 [] 10 ++ [6 % 256])
        ++ (deltaLoop [] ([] : List EntityState)).1 :=
  serializeDelta_new_entity 3 [] [] []
    { id := 9, pos_x := 2, health := 10, flags := 6 } rfl


-- C10

theorem findEntity_cons (a : EntityState) (l : List EntityState) (i : Nat) :
    findEntity (a :: l) i = if a.id = i then some a else findEntity l i := rfl

theorem updateEntity_cons (a : EntityState) (l : List EntityState) (i : Nat)
    (f : EntityState → EntityState) :
    updateEntity (a :: l) i f
      = (if a.id = i then f a else a) :: updateEntity l i f := by
  simp [updateEntity]

theorem findEntity_updateEntity_self (i : Nat) (f : EntityState → EntityState)
    (hf : ∀ e, (f e).id = e.id) :
    ∀ (l : List EntityState) (e : EntityState), findEntity l i = some e →
      findEntity (updateEntity l i f) i = some (f e) := by
  intro l
  induction l with
  | nil => intro e h; cases h
  | cons a l ih =>
      intro e h
      rw [updateEntity_cons]
      by_cases ha : a.id = i
      · have hae : a = e := by
          rw [findEntity_cons, if_pos ha] at h
          exact Option.some.inj h
        subst hae
        rw [if_pos ha, findEntity_cons, if_pos (by rw [hf]; exact ha)]
      · rw [findEntity_cons, if_neg ha] at h
        rw [if_neg ha, findEntity_cons, if_neg ha]
        exact ih e h

theorem findEntity_updateEntity_other (i i' : Nat) (f : EntityState → EntityState)
    (hf : ∀ e, (f e).id = e.id) (hne : i' ≠ i) :
    ∀ l : List EntityState,
      findEntity (updateEntity l i f) i' = findEntity l i' := by
  intro l
  induction l with
  | nil => rfl
  | cons a l ih =>
      rw [updateEntity_cons]
      by_cases ha : a.id = i
      · have h1 : ¬(f a).id = i' := by
          rw [hf, ha]; intro hc; exact hne hc.symm
        have h2 : ¬a.id = i' := by
          rw [ha]; intro hc; exact hne hc.symm
        rw [if_pos ha, findEntity_cons, if_neg h1, findEntity_cons, if_neg h2]
        exact ih
      · rw [if_neg ha, findEntity_cons, findEntity_cons]
        by_cases ha' : a.id = i'
        · rw [if_pos ha', if_pos ha']
        · rw [if_neg ha', if_neg ha']
          exact ih

/-- C10: `ApplyDamage` on a present target only rewrites that entity's
health (to the value clamped at zero); its other fields, every other
entity, the input queues, the snapshot maps, the id generator and the
tick counter are untouched.  On an absent target it returns `false` and
the whole state unchanged. -/
theorem ApplyDamage_frame (S : ServerState) (src tgt : Nat) (amt : Int)
    (dt : String) :
    (findEntity S.entities tgt = none → ApplyDamage S src tgt amt dt = (false, S))
    ∧ (∀ e, findEntity S.entities tgt = some e →
        (ApplyDamage S src tgt amt dt).1 = true
        ∧ (ApplyDamage S src tgt amt dt).2.server_tick = S.server_tick
        ∧ (ApplyDamage S src tgt amt dt).2.next_entity_id = S.next_entity_id
        ∧ (ApplyDamage S src tgt amt dt).2.input_queues = S.input_queues
        ∧ (ApplyDamage S src tgt amt dt).2.prev_snapshot_map = S.prev_snapshot_map
        ∧ (ApplyDamage S src tgt amt dt).2.prev_snapshot_map_before_tick
            = S.prev_snapshot_map_before_tick
        ∧ findEntity (ApplyDamage S src tgt amt dt).2.entities tgt
            = some { e with health := if e.health - amt < 0 then 0 else e.health - amt }
        ∧ (∀ i, i ≠ tgt →
            findEntity (ApplyDamage S src tgt amt dt).2.entities i
              = findEntity S.entities i)) := by
  constructor
  · intro h; simp [ApplyDamage, h]
  · intro e he
    simp only [ApplyDamage, he]
    refine ⟨by trivial, by trivial, by trivial, by trivial, by trivial, by trivial, ?_, ?_⟩
    · exact findEntity_updateEntity_self tgt
        (fun en => { en with health := if en.health - amt < 0 then 0 else en.health - amt })
        (fun _ => rfl) S.entities e he
    · intro i hi
      exact findEntity_updateEntity_other tgt i
        (fun en => { en with health := if en.health - amt < 0 then 0 else en.health - amt })
        (fun _ => rfl) hi S.entities

/-- The constructor state with its fixed-point fields evaluated. -/
theorem initServer_eval :
    initServer =
      { server_tick := 0, next_entity_id := 1002,
        entities := [{ id := 1001, type := EntityType.Character, pos_x := 0,
                       pos_y := 0, vel_x := 0, vel_y := 0, health := 100,
                       radius := 500, lifetime_ticks := -1, flags := 0 }],
        input_queues := [], prev_snapshot_map := [],
        prev_snapshot_map_before_tick := [] } := by
  norm_num [initServer, to_fixed, ratTrunc]

/-- Witness for C10 on the initial server's character: 130 damage
clamps health from 100 to 0 and flips no other field. -/
theorem ApplyDamage_frame_witness :
    (ApplyDamage initServer 1 1001 130 "physical").1 = true
    ∧ findEntity (ApplyDamage initServer 1 1001 130 "physical").2.entities 1001
        = some { id := 1001, type := EntityType.Character, pos_x := 0, pos_y := 0,
                 vel_x := 0, vel_y := 0, health := 0, radius := 500,
                 lifetime_ticks := -1, flags := 0 } := by
  have h := (ApplyDamage_frame initServer 1 1001 130 "physical").2
    { id := 1001, type := EntityType.Character, pos_x := 0, pos_y := 0,
      vel_x := 0, vel_y := 0, health := 100, radius := 500,
      lifetime_ticks := -1, flags := 0 }
    (by rw [initServer_eval]; decide)
  refine ⟨h.1, ?_⟩
  rw [h.2.2.2.2.2.2.1]
  norm_num

-- C9

theorem ApplyKnockback_found (s : ℚ → ℚ) (S : ServerState) (src tgt : Nat)
    (dx dy f d : ℚ) (e : EntityState) (he : findEntity S.entities tgt = some e) :
    ApplyKnockback s S src tgt dx dy f d
      = some (true, { S with entities := updateEntity S.entities tgt fun en =>
          { en with
            vel_x := en.vel_x + to_fixed
              ((if 0 < s (dx * dx + dy * dy) then dx / s (dx * dx + dy * dy) else dx) * f / 30),
            vel_y := en.vel_y + to_fixed
              ((if 0 < s (dx * dx + dy * dy) then dy / s (dx * dx + dy * dy) else dy) * f / 30) } }) := by
  unfold ApplyKnockback
  rw [he]
  by_cases hl : 0 < s (dx * dx + dy * dy)
  · have hne : s (dx * dx + dy * dy) ≠ 0 := ne_of_gt hl
    simp [qdivChecked, hl, hne, (by norm_num : (30 : ℚ) ≠ 0)]
  · simp [qdivChecked, hl, (by norm_num : (30 : ℚ) ≠ 0)]

theorem ApplyKnockback_isSome (s : ℚ → ℚ) (S : ServerState) (src tgt : Nat)
    (dx dy f d : ℚ) : (ApplyKnockback s S src tgt dx dy f d).isSome := by
  cases he : findEntity S.entities tgt with
  | none => unfold ApplyKnockback; rw [he]; rfl
  | some e => rw [ApplyKnockback_found s S src tgt dx dy f d e he]; rfl

/-- C9: knockback never divides by zero (the engine entry point guards
the normalization with `len > 0`, and the Lua bridge substitutes the
default direction `(1, 0)` with length 1 for a zero-length input), and
the per-tick fixed-point delta computed from the normalized direction
and the force is added to the target's existing velocity, not written
over it. -/
theorem knockback_no_div_by_zero_and_adds :
    (∀ (s : ℚ → ℚ) (S : ServerState) (src tgt : Nat) (dx dy f d : ℚ),
      (ApplyKnockback s S src tgt dx dy f d).isSome)
    ∧ (∀ (s : ℚ → ℚ) (S : ServerState) (src tgt : Nat) (dx dy f d : ℚ),
      (l_ApplyKnockback s S src tgt dx dy f d).isSome)
    ∧ (∀ (s : ℚ → ℚ) (S : ServerState) (src tgt : Nat) (dx dy f d : ℚ)
        (e : EntityState), findEntity S.entities tgt = some e →
      ∃ S', ApplyKnockback s S src tgt dx dy f d = some (true, S')
        ∧ findEntity S'.entities tgt
            = some { e with
                vel_x := e.vel_x + to_fixed
                  ((if 0 < s (dx * dx + dy * dy) then dx / s (dx * dx + dy * dy) else dx) * f / 30),
                vel_y := e.vel_y + to_fixed
                  ((if 0 < s (dx * dx + dy * dy) then dy / s (dx * dx + dy * dy) else dy) * f / 30) }
        ∧ (∀ i, i ≠ tgt → findEntity S'.entities i = findEntity S.entities i))
    ∧ (∀ (s : ℚ → ℚ) (S : ServerState) (src tgt : Nat) (f d : ℚ)
        (e : EntityState), s 0 = 0 → s 1 = 1 →
        findEntity S.entities tgt = some e →
      ∃ S', l_ApplyKnockback s S src tgt 0 0 f d = some (true, S')
        ∧ findEntity S'.entities tgt
            = some { e with vel_x := e.vel_x + to_fixed (f / 30) }) := by
  refine ⟨ApplyKnockback_isSome, fun s S src tgt dx dy f d => ?_,
          fun s S src tgt dx dy f d e he => ?_,
          fun s S src tgt f d e h0 h1 he => ?_⟩
  · unfold l_ApplyKnockback
    by_cases hl : s (dx * dx + dy * dy) = 0
    · simpa [hl, qdivChecked] using ApplyKnockback_isSome s S src tgt 1 0 f d
    · simpa [hl, qdivChecked] using
        ApplyKnockback_isSome s S src tgt (dx / s (dx * dx + dy * dy))
          (dy / s (dx * dx + dy * dy)) f d
  · refine ⟨_, ApplyKnockback_found s S src tgt dx dy f d e he, ?_, ?_⟩
    · exact findEntity_updateEntity_self tgt
        (fun en => { en with
          vel_x := en.vel_x + to_fixed
            ((if 0 < s (dx * dx + dy * dy) then dx / s (dx * dx + dy * dy) else dx) * f / 30),
          vel_y := en.vel_y + to_fixed
            ((if 0 < s (dx * dx + dy * dy) then dy / s (dx * dx + dy * dy) else dy) * f / 30) })
        (fun _ => rfl) S.entities e he
    · intro i hi
      exact findEntity_updateEntity_other tgt i
        (fun en => { en with
          vel_x := en.vel_x + to_fixed
            ((if 0 < s (dx * dx + dy * dy) then dx / s (dx * dx + dy * dy) else dx) * f / 30),
          vel_y := en.vel_y + to_fixed
            ((if 0 < s (dx * dx + dy * dy) then dy / s (dx * dx + dy * dy) else dy) * f / 30) })
        (fun _ => rfl) hi S.entities
  · have hzero : (0 : ℚ) * 0 + 0 * 0 = 0 := by norm_num
    have hbr : l_ApplyKnockback s S src tgt 0 0 f d
        = ApplyKnockback s S src tgt 1 0 f d := by
      unfold l_ApplyKnockback
      rw [hzero, h0]
      simp [qdivChecked]
    have hone : (1 : ℚ) * 1 + 0 * 0 = 1 := by norm_num
    have happ := ApplyKnockback_found s S src tgt 1 0 f d e he
    rw [hone, h1] at happ
    have hpos : (0 : ℚ) < 1 := by norm_num
    refine ⟨{ S with entities := updateEntity S.entities tgt fun en =>
        { en with
          vel_x := en.vel_x + to_fixed ((if (0:ℚ) < 1 then 1 / 1 else 1) * f / 30),
          vel_y := en.vel_y + to_fixed ((if (0:ℚ) < 1 then 0 / 1 else 0) * f / 30) } },
      ?_, ?_⟩
    · rw [hbr, happ]
    · have hfind := findEntity_updateEntity_self tgt
        (fun en => { en with
          vel_x := en.vel_x + to_fixed ((if (0:ℚ) < 1 then 1 / 1 else 1) * f / 30),
          vel_y := en.vel_y + to_fixed ((if (0:ℚ) < 1 then 0 / 1 else 0) * f / 30) })
        (fun _ => rfl) S.entities e he
      simp only [if_pos hpos] at hfind
      show findEntity (updateEntity S.entities tgt _) tgt = _
      simp only [if_pos hpos]
      rw [hfind]
      norm_num [to_fixed, ratTrunc, Int.zero_tdiv]

/-- Witness for C9: a knockback through the Lua bridge with a
zero-length direction on the initial server's character, with a
concrete square root stand-in. -/
theorem knockback_witness :
    ∃ S', l_ApplyKnockback (fun x => if x = 0 then 0 else 1) initServer 1 1001
            0 0 60 1 = some (true, S')
      ∧ findEntity S'.entities 1001
          = some { id := 1001, type := EntityType.Character, pos_x := 0,
                   pos_y := 0, vel_x := 2000, vel_y := 0, health := 100,
                   radius := 500, lifetime_ticks := -1, flags := 0 } := by
  have h := knockback_no_div_by_zero_and_adds.2.2.2
    (fun x => if x = 0 then 0 else 1) initServer 1 1001 60 1
    { id := 1001, type := EntityType.Character, pos_x := 0, pos_y := 0,
      vel_x := 0, vel_y := 0, health := 100, radius := 500,
      lifetime_ticks := -1, flags := 0 }
    (by norm_num) (by norm_num) (by rw [initServer_eval]; decide)
  obtain ⟨S', h1, h2⟩ := h
  refine ⟨S', h1, ?_⟩
  rw [h2]
  norm_num [to_fixed, ratTrunc]

-- C6

/-- The scenario server with its fixed-point fields evaluated. -/
theorem scenarioServer_eval :
    scenarioServer =
      { server_tick := 0, next_entity_id := 1002,
        entities := [{ id := 1001, type := EntityType.Character, pos_x := 0,
                       pos_y := 0, vel_x := 0, vel_y := 0, health := 100,
                       radius := 500, lifetime_ticks := -1, flags := 0 }],
        input_queues := [(1, (List.range 10).map scenarioInput)],
        prev_snapshot_map := [], prev_snapshot_map_before_tick := [] } := by
  unfold scenarioServer
  rw [initServer_eval]
  decide

/-- C6 counterexample: in the §8 scenario (ten `dx = 127` inputs for
ticks 0..9), the x velocity recorded in the snapshot of tick 9 is 141,
not `MAX_SPEED_FIXED_PER_TICK = 166`: the snapshot is taken after the
friction step, which already pulled the applied velocity down by
`FRICTION_PER_TICK`. -/
theorem scenario_tick9_vel_not_max :
    (findEntity (snapAt scenarioServer 9).entities 1001).map EntityState.vel_x
        = some 141
    ∧ ¬((findEntity (snapAt scenarioServer 9).entities 1001).map EntityState.vel_x
        = some MAX_SPEED_FIXED_PER_TICK) := by
  rw [scenarioServer_eval]
  decide

/-- C6 as amended: in the §8 scenario the x velocity recorded in every
snapshot of ticks 0..9 is exactly
`MAX_SPEED_FIXED_PER_TICK - FRICTION_PER_TICK = 141` (so it has
stabilized there by tick 9). -/
theorem scenario_vel_stabilizes :
    ∀ j ∈ List.range 10,
      (findEntity (snapAt scenarioServer j).entities 1001).map EntityState.vel_x
        = some (MAX_SPEED_FIXED_PER_TICK - FRICTION_PER_TICK) := by
  simp only [scenarioServer_eval]
  decide

-- C3

theorem applyInputs_tlKey (l : List ClientInput) :
    ∀ e : EntityState, tlKey (applyInputsToEntity e l) = tlKey e := by
  induction l with
  | nil => intro e; rfl
  | cons i rest ih =>
      intro e
      show tlKey (List.foldl _ (if i.move_dx ≠ 0 ∨ i.move_dy ≠ 0 then _ else e) rest) = _
      by_cases h : i.move_dx ≠ 0 ∨ i.move_dy ≠ 0
      · rw [if_pos h]; exact ih _
      · rw [if_neg h]; exact ih _

theorem updateEntity_tlKey (i : Nat) (f : EntityState → EntityState)
    (hf : ∀ e, tlKey (f e) = tlKey e) :
    ∀ l : List EntityState, (updateEntity l i f).map tlKey = l.map tlKey := by
  intro l
  induction l with
  | nil => rfl
  | cons a l ih =>
      rw [updateEntity_cons]
      by_cases ha : a.id = i
      · simp only [if_pos ha, List.map_cons, ih, hf]
      · simp only [if_neg ha, List.map_cons, ih]

theorem inputPhase_tlKey (t : Nat) :
    ∀ (qs : List (Nat × List ClientInput)) (ents : List EntityState),
      ((inputPhase t qs ents).2).map tlKey = ents.map tlKey := by
  intro qs
  induction qs with
  | nil => intro ents; rfl
  | cons kv rest ih =>
      intro ents
      show ((inputPhase t rest _).2).map tlKey = _
      rw [ih]
      by_cases hc : (findEntity ents 1001).isSome ∧ (popForTick t kv.2).1 ≠ []
      · rw [if_pos hc]
        exact updateEntity_tlKey 1001 _ (fun e => applyInputs_tlKey _ e) ents
      · rw [if_neg hc]

theorem simulateEntityTick_tlKey (e : EntityState) :
    tlKey (simulateEntityTick e) = (e.id, e.type, decLife e.lifetime_ticks) := by
  simp only [simulateEntityTick, decLife, tlKey]
  split_ifs <;> simp_all

theorem findEntity_congr_tlKey (i : Nat) :
    ∀ l l' : List EntityState, l.map tlKey = l'.map tlKey →
      Option.map tlKey (findEntity l i) = Option.map tlKey (findEntity l' i) := by
  intro l
  induction l with
  | nil =>
      intro l' h
      rw [List.map_nil] at h
      rw [List.eq_nil_of_map_eq_nil h.symm]
  | cons a l ih =>
      intro l' h
      cases l' with
      | nil => cases h
      | cons b l'' =>
          simp only [List.map_cons, List.cons.injEq] at h
          have hid : a.id = b.id := congrArg Prod.fst h.1
          rw [findEntity_cons, findEntity_cons]
          by_cases ha : a.id = i
          · rw [if_pos ha, if_pos (hid ▸ ha)]
            simp [h.1]
          · rw [if_neg ha, if_neg (hid ▸ ha)]
            exact ih l'' h.2

theorem findEntity_map (g : EntityState → EntityState)
    (hg : ∀ e, (g e).id = e.id) (i : Nat) :
    ∀ l : List EntityState, findEntity (l.map g) i = (findEntity l i).map g := by
  intro l
  induction l with
  | nil => rfl
  | cons a l ih =>
      rw [List.map_cons, findEntity_cons, findEntity_cons, hg]
      by_cases ha : a.id = i
      · rw [if_pos ha, if_pos ha]; rfl
      · rw [if_neg ha, if_neg ha, ih]

theorem findEntity_none_of_count_zero (i : Nat) :
    ∀ l : List EntityState, (l.map fun x => x.id).count i = 0 →
      findEntity l i = none := by
  intro l
  induction l with
  | nil => intro _; rfl
  | cons a l ih =>
      intro h
      rw [List.map_cons, List.count_cons] at h
      rw [findEntity_cons, if_neg (by intro hc; simp [hc] at h)]
      exact ih (by omega)

theorem findEntity_filter_none (p : EntityState → Bool) (i : Nat) :
    ∀ l : List EntityState, findEntity l i = none →
      findEntity (l.filter p) i = none := by
  intro l
  induction l with
  | nil => intro _; rfl
  | cons a l ih =>
      intro h
      rw [findEntity_cons] at h
      by_cases ha : a.id = i
      · rw [if_pos ha] at h; cases h
      · rw [if_neg ha] at h
        rw [List.filter_cons]
        by_cases hp : p a
        · simp only [hp, if_pos]
          rw [findEntity_cons, if_neg ha]
          exact ih h
        · simp only [hp]
          simpa using ih h

theorem count_ids_eq_of_tlKey (l l' : List EntityState)
    (h : l.map tlKey = l'.map tlKey) :
    l.map (fun x => x.id) = l'.map (fun x => x.id) := by
  have h2 := congrArg (List.map fun p : Nat × EntityType × Int => p.1) h
  simpa [List.map_map, Function.comp] using h2

theorem findEntity_filter_unique (p : EntityState → Bool) (i : Nat) :
    ∀ l : List EntityState, (l.map fun x => x.id).count i ≤ 1 →
      ∀ x, findEntity l i = some x →
        findEntity (l.filter p) i = if p x then some x else none := by
  intro l
  induction l with
  | nil => intro _ x hx; cases hx
  | cons a l ih =>
      intro hcnt x hx
      rw [findEntity_cons] at hx
      rw [List.map_cons, List.count_cons] at hcnt
      by_cases ha : a.id = i
      · rw [if_pos ha] at hx
        have hax : a = x := Option.some.inj hx
        subst hax
        have hrest : (l.map fun x => x.id).count i = 0 := by
          rw [if_pos (beq_iff_eq.mpr ha)] at hcnt
          omega
        rw [List.filter_cons]
        by_cases hp : p a
        · simp only [hp, if_pos]
          rw [findEntity_cons, if_pos ha]
        · simp only [hp]
          have : findEntity (l.filter p) i = none :=
            findEntity_filter_none p i l (findEntity_none_of_count_zero i l hrest)
          simp [hp, this]
      · rw [if_neg ha] at hx
        have hcnt' : (l.map fun x => x.id).count i ≤ 1 := by
          rw [if_neg (by simpa using ha)] at hcnt
          omega
        rw [List.filter_cons]
        by_cases hp : p a
        · simp only [hp, if_pos]
          rw [findEntity_cons, if_neg ha]
          exact ih hcnt' x hx
        · simp only [hp]
          simpa using ih hcnt' x hx

theorem count_ids_filter_le (p : EntityState → Bool) (i : Nat)
    (l : List EntityState) :
    ((l.filter p).map fun x => x.id).count i ≤ (l.map fun x => x.id).count i :=
  List.Sublist.count_le (List.Sublist.map _ (List.filter_sublist l)) i

theorem simulateEntityTick_id (x : EntityState) :
    (simulateEntityTick x).id = x.id :=
  congrArg (fun q : Nat × EntityType × Int => q.1) (simulateEntityTick_tlKey x)

theorem map_ids_map_sim :
    ∀ l : List EntityState,
      (l.map simulateEntityTick).map (fun x => x.id) = l.map (fun x => x.id) := by
  intro l
  induction l with
  | nil => rfl
  | cons a l ih => simp only [List.map_cons, simulateEntityTick_id, ih]

theorem tick_entities (S : ServerState) :
    (tick S).2.entities
      = (((inputPhase S.server_tick S.input_queues S.entities).2).map
          simulateEntityTick).filter
          (fun e => decide ¬(e.type = EntityType.Projectile ∧ e.lifetime_ticks = 0)) := rfl

theorem tick_snap_entities (S : ServerState) :
    (tick S).1.entities = (tick S).2.entities := rfl

theorem stepState_iter_server_tick (j : Nat) :
    ∀ S : ServerState, (stepState^[j] S).server_tick = S.server_tick + j := by
  induction j with
  | zero => intro S; rfl
  | succ j ih =>
      intro S
      rw [Function.iterate_succ_apply, ih]
      show (tick S).2.server_tick + j = S.server_tick + (j + 1)
      show S.server_tick + 1 + j = S.server_tick + (j + 1)
      omega

theorem snapAt_server_tick (S : ServerState) (j : Nat) :
    (snapAt S j).server_tick = S.server_tick + j := by
  show (tick (stepState^[j] S)).1.server_tick = S.server_tick + j
  show (stepState^[j] S).server_tick = S.server_tick + j
  exact stepState_iter_server_tick j S

theorem tick_proj (S : ServerState) (pid : Nat) (e : EntityState)
    (he : findEntity S.entities pid = some e)
    (hp : e.type = EntityType.Projectile)
    (hu : (S.entities.map fun x => x.id).count pid ≤ 1) :
    (((tick S).2.entities.map fun x => x.id).count pid ≤ 1
    ∧ (decLife e.lifetime_ticks = 0 → findEntity (tick S).2.entities pid = none)
    ∧ (decLife e.lifetime_ticks ≠ 0 →
        ∃ e', findEntity (tick S).2.entities pid = some e'
          ∧ e'.type = EntityType.Projectile
          ∧ e'.lifetime_ticks = decLife e.lifetime_ticks)) := by
  have htl : ((inputPhase S.server_tick S.input_queues S.entities).2).map tlKey
      = S.entities.map tlKey := inputPhase_tlKey S.server_tick S.input_queues S.entities
  have hfind1 : Option.map tlKey
        (findEntity ((inputPhase S.server_tick S.input_queues S.entities).2) pid)
      = Option.map tlKey (findEntity S.entities pid) :=
    findEntity_congr_tlKey pid _ S.entities htl
  rw [he] at hfind1
  obtain ⟨e1, he1, htle⟩ : ∃ e1,
      findEntity ((inputPhase S.server_tick S.input_queues S.entities).2) pid = some e1
      ∧ tlKey e1 = tlKey e := by
    cases hh : findEntity ((inputPhase S.server_tick S.input_queues S.entities).2) pid with
    | none => rw [hh] at hfind1; cases hfind1
    | some e1 => rw [hh] at hfind1; exact ⟨e1, rfl, Option.some.inj hfind1⟩
  have e1_type : e1.type = e.type :=
    congrArg (fun q : Nat × EntityType × Int => q.2.1) htle
  have e1_lt : e1.lifetime_ticks = e.lifetime_ticks :=
    congrArg (fun q : Nat × EntityType × Int => q.2.2) htle
  have hsim := simulateEntityTick_tlKey e1
  have hsim_type : (simulateEntityTick e1).type = EntityType.Projectile := by
    have h2 : (simulateEntityTick e1).type = e1.type :=
      congrArg (fun q : Nat × EntityType × Int => q.2.1) hsim
    rw [h2, e1_type, hp]
  have hsim_lt : (simulateEntityTick e1).lifetime_ticks = decLife e.lifetime_ticks := by
    have h2 : (simulateEntityTick e1).lifetime_ticks = decLife e1.lifetime_ticks :=
      congrArg (fun q : Nat × EntityType × Int => q.2.2) hsim
    rw [h2, e1_lt]
  have hfind2 : findEntity
        (((inputPhase S.server_tick S.input_queues S.entities).2).map simulateEntityTick) pid
      = some (simulateEntityTick e1) := by
    rw [findEntity_map simulateEntityTick simulateEntityTick_id pid, he1]
    rfl
  have hids1 : ((inputPhase S.server_tick S.input_queues S.entities).2).map (fun x => x.id)
      = S.entities.map (fun x => x.id) := count_ids_eq_of_tlKey _ _ htl
  have hcnt2 : ((((inputPhase S.server_tick S.input_queues S.entities).2).map
        simulateEntityTick).map fun x => x.id).count pid ≤ 1 := by
    rw [map_ids_map_sim, hids1]; exact hu
  have hfilter := findEntity_filter_unique
    (fun e => decide ¬(e.type = EntityType.Projectile ∧ e.lifetime_ticks = 0)) pid
    _ hcnt2 (simulateEntityTick e1) hfind2
  refine ⟨?_, ?_, ?_⟩
  · rw [tick_entities]
    exact le_trans (count_ids_filter_le _ pid _) hcnt2
  · intro h0
    have hpfalse : (fun e => decide ¬(e.type = EntityType.Projectile ∧ e.lifetime_ticks = 0))
        (simulateEntityTick e1) = false := by
      simp [hsim_type, hsim_lt, h0]
    rw [tick_entities, hfilter, hpfalse]
    rfl
  · intro h0
    have hptrue : (fun e => decide ¬(e.type = EntityType.Projectile ∧ e.lifetime_ticks = 0))
        (simulateEntityTick e1) = true := by
      simp [hsim_type, hsim_lt, h0]
    refine ⟨simulateEntityTick e1, ?_, hsim_type, hsim_lt⟩
    rw [tick_entities, hfilter, hptrue]
    rfl

theorem tick_absent (S : ServerState) (pid : Nat)
    (ha : findEntity S.entities pid = none) :
    findEntity (tick S).2.entities pid = none := by
  have htl : ((inputPhase S.server_tick S.input_queues S.entities).2).map tlKey
      = S.entities.map tlKey := inputPhase_tlKey S.server_tick S.input_queues S.entities
  have hfind1 : Option.map tlKey
        (findEntity ((inputPhase S.server_tick S.input_queues S.entities).2) pid)
      = Option.map tlKey (findEntity S.entities pid) :=
    findEntity_congr_tlKey pid _ S.entities htl
  rw [ha] at hfind1
  have h1 : findEntity ((inputPhase S.server_tick S.input_queues S.entities).2) pid = none := by
    cases hh : findEntity ((inputPhase S.server_tick S.input_queues S.entities).2) pid with
    | none => rfl
    | some e1 => rw [hh] at hfind1; cases hfind1
  have h2 : findEntity
        (((inputPhase S.server_tick S.input_queues S.entities).2).map simulateEntityTick) pid
      = none := by
    rw [findEntity_map simulateEntityTick simulateEntityTick_id pid, h1]
    rfl
  rw [tick_entities]
  exact findEntity_filter_none _ pid _ h2

theorem snapAt_absent (pid : Nat) :
    ∀ (j : Nat) (S : ServerState), findEntity S.entities pid = none →
      findEntity (snapAt S j).entities pid = none := by
  intro j
  induction j with
  | zero =>
      intro S hS
      show findEntity (tick S).1.entities pid = none
      rw [tick_snap_entities]
      exact tick_absent S pid hS
  | succ j ih =>
      intro S hS
      show findEntity (tick (stepState^[j + 1] S)).1.entities pid = none
      rw [Function.iterate_succ_apply]
      exact ih (stepState S) (tick_absent S pid hS)

theorem decLife_natCast (m : Nat) (h : 1 ≤ m) :
    decLife (m : Int) = ((m - 1 : Nat) : Int) := by
  have h0 : (0 : Int) < (m : Int) := by exact_mod_cast h
  simp only [decLife, if_pos h0]
  omega

theorem life_window_arith (a b : Nat) (hb : 1 ≤ b) (hb1 : b ≠ 1) :
    (a + 2 ≤ b - 1) ↔ (a + 1 + 2 ≤ b) := by omega

theorem snap_proj_life :
    ∀ (j : Nat) (T : ServerState) (e : EntityState) (pid m : Nat),
      findEntity T.entities pid = some e → e.type = EntityType.Projectile →
      e.lifetime_ticks = (m : Int) → 1 ≤ m →
      (T.entities.map fun x => x.id).count pid ≤ 1 →
      ((findEntity (snapAt T j).entities pid).isSome ↔ j + 2 ≤ m) := by
  intro j
  induction j with
  | zero =>
      intro T e pid m he hp hm h1 hu
      have hdec : decLife e.lifetime_ticks = ((m - 1 : Nat) : Int) := by
        rw [hm]; exact decLife_natCast m h1
      have h := tick_proj T pid e he hp hu
      show (findEntity (tick T).1.entities pid).isSome ↔ 0 + 2 ≤ m
      rw [tick_snap_entities]
      by_cases hm1 : m = 1
      · rw [h.2.1 (by rw [hdec, hm1]; norm_num)]
        simp only [Option.isSome_none, Bool.false_eq_true, false_iff]
        omega
      · obtain ⟨e', he', _, _⟩ := h.2.2 (by
          rw [hdec]
          intro hc
          have : m - 1 = 0 := by exact_mod_cast hc
          omega)
        rw [he']
        simp only [Option.isSome_some, true_iff]
        omega
  | succ j ih =>
      intro T e pid m he hp hm h1 hu
      have hdec : decLife e.lifetime_ticks = ((m - 1 : Nat) : Int) := by
        rw [hm]; exact decLife_natCast m h1
      have h := tick_proj T pid e he hp hu
      have hstep : snapAt T (j + 1) = snapAt (stepState T) j := by
        show (tick (stepState^[j + 1] T)).1 = _
        rw [Function.iterate_succ_apply]
        rfl
      rw [hstep]
      by_cases hm1 : m = 1
      · have habs : findEntity (tick T).2.entities pid = none :=
          h.2.1 (by rw [hdec, hm1]; norm_num)
        rw [snapAt_absent pid j (stepState T) habs]
        simp only [Option.isSome_none, Bool.false_eq_true, false_iff]
        omega
      · have hne : decLife e.lifetime_ticks ≠ 0 := by
          rw [hdec]
          intro hc
          have : m - 1 = 0 := by exact_mod_cast hc
          omega
        obtain ⟨e', he', hp', hl'⟩ := h.2.2 hne
        have hm' : e'.lifetime_ticks = ((m - 1 : Nat) : Int) := by rw [hl', hdec]
        have := ih (stepState T) e' pid (m - 1) he' hp' hm' (by omega) h.1
        rw [this]
        exact life_window_arith j m h1 hm1

theorem insertEntity_fresh (p : EntityState) :
    ∀ l : List EntityState, (∀ e ∈ l, e.id ≠ p.id) →
      insertEntity l p = l ++ [p] := by
  intro l
  induction l with
  | nil => intro _; rfl
  | cons a l ih =>
      intro h
      show (if a.id = p.id then _ else _) = _
      rw [if_neg (h a (List.mem_cons_self a l))]
      rw [List.cons_append]
      exact congrArg (a :: ·) (ih fun e hm => h e (List.mem_cons_of_mem a hm))

theorem findEntity_append_single (p : EntityState) :
    ∀ l : List EntityState, (∀ e ∈ l, e.id ≠ p.id) →
      findEntity (l ++ [p]) p.id = some p := by
  intro l
  induction l with
  | nil => intro _; simp [findEntity]
  | cons a l ih =>
      intro h
      rw [List.cons_append, findEntity_cons,
        if_neg (h a (List.mem_cons_self a l))]
      exact ih fun e hm => h e (List.mem_cons_of_mem a hm)

theorem count_ids_append_single (p : EntityState) (l : List EntityState)
    (h : ∀ e ∈ l, e.id ≠ p.id) :
    ((l ++ [p]).map fun x => x.id).count p.id = 1 := by
  rw [List.map_append, List.count_append]
  have h0 : (l.map fun x => x.id).count p.id = 0 := by
    apply List.count_eq_zero.mpr
    intro hmem
    obtain ⟨e, hmem', hid⟩ := List.mem_map.mp hmem
    exact h e hmem' hid
  rw [h0]
  simp

/-- C3 as amended: a projectile spawned with `life_time = L` seconds
(an integral number, `L ≥ 1`) at tick rate 30, immediately before the
tick numbered `spawn`, gets `lifetime_ticks = 30 L`; it is present in
the snapshots of ticks `[spawn, spawn + 30 L - 1)` and absent from the
snapshot of tick `spawn + 30 L - 1` onward — one tick earlier than the
claimed `[spawn, spawn + L R)` window, because the tick that decrements
the counter to zero erases the projectile before building its snapshot. -/
theorem spawn_lifetime_window (S : ServerState) (caster : Nat)
    (x y dx dy speed radius : ℚ) (L : Nat) (hL : 1 ≤ L)
    (hfresh : ∀ e ∈ S.entities, e.id < S.next_entity_id) :
    ∀ j : Nat,
      ((findEntity
          (snapAt (SpawnProjectile S caster x y dx dy speed radius (L : ℚ)).2 j).entities
          (SpawnProjectile S caster x y dx dy speed radius (L : ℚ)).1).isSome
        ↔ j + 2 ≤ 30 * L)
      ∧ (snapAt (SpawnProjectile S caster x y dx dy speed radius (L : ℚ)).2 j).server_tick
          = S.server_tick + j := by
  intro j
  have hlt : (0 : ℚ) < (L : ℚ) := by exact_mod_cast (by omega : 0 < L)
  have hlife : ratTrunc ((L : ℚ) * 30) = ((30 * L : Nat) : Int) := by
    have hcast : ((L : ℚ) * 30) = ((30 * L : Nat) : ℚ) := by push_cast; ring
    rw [hcast, ratTrunc, Rat.num_natCast, Rat.den_natCast]
    simp [Int.tdiv]
  have hfresh' : ∀ e ∈ S.entities,
      e.id ≠ ({ id := S.next_entity_id, type := EntityType.Projectile,
                pos_x := to_fixed x, pos_y := to_fixed y,
                vel_x := to_fixed (dx * (speed / 30)),
                vel_y := to_fixed (dy * (speed / 30)), health := 0,
                radius := to_fixed radius,
                lifetime_ticks := if 0 < (L : ℚ) then ratTrunc ((L : ℚ) * 30) else -1,
                flags := 0 } : EntityState).id :=
    fun e hm => Nat.ne_of_lt (hfresh e hm)
  have hents : (SpawnProjectile S caster x y dx dy speed radius (L : ℚ)).2.entities
      = S.entities ++
        [{ id := S.next_entity_id, type := EntityType.Projectile,
           pos_x := to_fixed x, pos_y := to_fixed y,
           vel_x := to_fixed (dx * (speed / 30)),
           vel_y := to_fixed (dy * (speed / 30)), health := 0,
           radius := to_fixed radius,
           lifetime_ticks := if 0 < (L : ℚ) then ratTrunc ((L : ℚ) * 30) else -1,
           flags := 0 }] := by
    show insertEntity S.entities _ = _
    exact insertEntity_fresh _ S.entities hfresh'
  have hfind0 : findEntity
      (SpawnProjectile S caster x y dx dy speed radius (L : ℚ)).2.entities
      (SpawnProjectile S caster x y dx dy speed radius (L : ℚ)).1
      = some { id := S.next_entity_id, type := EntityType.Projectile,
               pos_x := to_fixed x, pos_y := to_fixed y,
               vel_x := to_fixed (dx * (speed / 30)),
               vel_y := to_fixed (dy * (speed / 30)), health := 0,
               radius := to_fixed radius,
               lifetime_ticks := if 0 < (L : ℚ) then ratTrunc ((L : ℚ) * 30) else -1,
               flags := 0 } := by
    rw [hents]
    exact findEntity_append_single _ S.entities hfresh'
  have hcnt0 : ((SpawnProjectile S caster x y dx dy speed radius (L : ℚ)).2.entities.map
      fun e => e.id).count
      (SpawnProjectile S caster x y dx dy speed radius (L : ℚ)).1 ≤ 1 := by
    rw [hents]
    exact le_of_eq (count_ids_append_single _ S.entities hfresh')
  constructor
  · exact snap_proj_life j _ _ _ (30 * L) hfind0 rfl
      (by show (if 0 < (L : ℚ) then ratTrunc ((L : ℚ) * 30) else -1) = _
          rw [if_pos hlt, hlife])
      (by omega) hcnt0
  · exact snapAt_server_tick _ j

/-- The state right after spawning a projectile with `life_time = 1` s
(speed 30, direction `(1, 0)`, radius 1) on the initial server, with
the fixed-point fields evaluated: `lifetime_ticks = 30`. -/
theorem spawnServer_eval :
    (SpawnProjectile initServer 1001 0 0 1 0 30 1 (1 : ℚ)).2
      = { server_tick := 0, next_entity_id := 1003,
          entities := [{ id := 1001, type := EntityType.Character, pos_x := 0,
                         pos_y := 0, vel_x := 0, vel_y := 0, health := 100,
                         radius := 500, lifetime_ticks := -1, flags := 0 },
                       { id := 1002, type := EntityType.Projectile, pos_x := 0,
                         pos_y := 0, vel_x := 1000, vel_y := 0, health := 0,
                         radius := 1000, lifetime_ticks := 30, flags := 0 }],
          input_queues := [], prev_snapshot_map := [],
          prev_snapshot_map_before_tick := [] } := by
  rw [show (SpawnProjectile initServer 1001 0 0 1 0 30 1 (1 : ℚ)).2
      = { initServer with
          next_entity_id := initServer.next_entity_id + 1,
          entities := insertEntity initServer.entities
            { id := initServer.next_entity_id, type := EntityType.Projectile,
              pos_x := to_fixed 0, pos_y := to_fixed 0,
              vel_x := to_fixed (1 * ((30 : ℚ) / 30)),
              vel_y := to_fixed (0 * ((30 : ℚ) / 30)), health := 0,
              radius := to_fixed 1,
              lifetime_ticks := if (0 : ℚ) < 1 then ratTrunc (1 * 30) else -1,
              flags := 0 } } from rfl]
  rw [initServer_eval]
  norm_num [to_fixed, ratTrunc, insertEntity]

/-- C3 counterexample: for `L = 1` s at tick rate 30 (spawn before tick
0, `lifetime_ticks = 30`), the claim puts the projectile in the
snapshots of all ticks in `[0, 30)`, in particular tick 29 — but the
snapshot of tick 29 no longer contains it (the tick that decremented
the counter to zero removed it before snapshotting). -/
theorem spawn_lifetime_counterexample :
    29 < 1 * 30
    ∧ findEntity
        (snapAt (SpawnProjectile initServer 1001 0 0 1 0 30 1 (1 : ℚ)).2 29).entities
        (SpawnProjectile initServer 1001 0 0 1 0 30 1 (1 : ℚ)).1 = none := by
  refine ⟨by norm_num, ?_⟩
  rw [spawnServer_eval,
    show (SpawnProjectile initServer 1001 0 0 1 0 30 1 (1 : ℚ)).1 = 1002 from rfl]
  decide

/-- Witness for the amended C3 at `L = 1` on the initial server: the
projectile is present in the snapshot of tick 0. -/
theorem spawn_lifetime_window_witness :
    (findEntity
      (snapAt (SpawnProjectile initServer 1001 0 0 1 0 30 1 ((1 : Nat) : ℚ)).2 0).entities
      (SpawnProjectile initServer 1001 0 0 1 0 30 1 ((1 : Nat) : ℚ)).1).isSome := by
  have h := spawn_lifetime_window initServer 1001 0 0 1 0 30 1 1 (le_refl 1)
    (by rw [initServer_eval]; decide) 0
  exact h.1.mpr (by norm_num)

/-- Witness for the amended C6 at tick 9 itself. -/
theorem scenario_vel_stabilizes_witness :
    (findEntity (snapAt scenarioServer 9).entities 1001).map EntityState.vel_x
      = some (MAX_SPEED_FIXED_PER_TICK - FRICTION_PER_TICK) :=
  scenario_vel_stabilizes 9 (by decide)
